import Mathlib

/-!
Verification of the BrieflyAI text-summarizer core: the summarization
facade (`summarizer.py`), the length-reduction metric, and the three
call-site adapters (CLI `summarize_cli.py`, GUI `app_gradio.py`, batch
evaluation `evaluate_rouge.py`).  Python strings are modelled by `String`,
Python `int` by `Int`, real-valued arithmetic by `ℚ`, and the external
summarization capability by an explicit function parameter.  Python's
string primitives (`split()`, `strip()`, `lower()`, `int()`, …) are given
executable char-list implementations so that concrete instances evaluate
inside the kernel.
-/

/-- Python `str.split()` on a char list: maximal non-whitespace runs, with
empty pieces discarded.  `acc` holds the (reversed) current word. -/
def pySplitAux : List Char → List Char → List (List Char)
  | [], acc => if acc = [] then [] else [acc.reverse]
  | c :: cs, acc =>
    if c.isWhitespace then
      if acc = [] then pySplitAux cs [] else acc.reverse :: pySplitAux cs []
    else
      pySplitAux cs (c :: acc)

/-- Python `s.split()`: the list of whitespace-separated words of `s`. -/
def pySplit (s : String) : List String :=
  (pySplitAux s.data []).map (fun cs => ⟨cs⟩)

/-- Word count in the sense of Python `len(s.split())`
(`summarizer.py`, lines 43-44). -/
def pyWordCount (s : String) : Nat :=
  (pySplit s).length

/-- Python `str.strip()`: remove leading and trailing whitespace. -/
def pyStrip (s : String) : String :=
  ⟨((s.data.dropWhile Char.isWhitespace).reverse.dropWhile Char.isWhitespace).reverse⟩

/-- Embeds `summarizer.py` line 44: `len(summary.split()) if summary else 0`
(the Python truthiness guard on the summary string). -/
def summaryLen (summary : String) : Nat :=
  if summary ≠ "" then pyWordCount summary else 0

/-- Embeds `compute_length_reduction` (`summarizer.py`, lines 41-50).
The float division is modelled exactly in `ℚ`; the division is reached
only in the branch where `orig_len ≠ 0`. -/
def compute_length_reduction (original summary : String) : Nat × Nat × ℚ :=
  let orig_len := pyWordCount original
  let sum_len := summaryLen summary
  if orig_len = 0 then
    (0, sum_len, 0)
  else
    (orig_len, sum_len, 1 - (sum_len : ℚ) / (orig_len : ℚ))

/-- Error raised by the facade on blank input (`ValueError("Input text is
empty.")` in `summarizer.py`, line 29). -/
inductive SummarizeError where
  | emptyInput
deriving DecidableEq, Repr

/-- Embeds `TextSummarizer.summarize` (`summarizer.py`, lines 24-39).
The external summarization capability (the Hugging Face pipeline bound at
construction) is modelled as the function parameter `pipeline`; the
configured length bounds and sampling flag are folded into it since the
facade merely forwards them.  The guard `not text or not text.strip()`
is `text = "" ∨ pyStrip text = ""`. -/
def TextSummarizer.summarize (pipeline : String → String) (text : String) :
    Except SummarizeError String :=
  if text = "" ∨ pyStrip text = "" then
    .error .emptyInput
  else
    .ok (pipeline text)

/-- Python `str.lower()` (ASCII case folding suffices for the inputs the
adapters compare against). -/
def pyLower (s : String) : String :=
  ⟨s.data.map Char.toLower⟩

/-- Python `str.endswith(suffix)`. -/
def pyEndsWith (s suffix : String) : Bool :=
  suffix.data.isSuffixOf s.data

/-- Value of a non-empty all-digit char run, for `pyInt`. -/
def digitsVal? (cs : List Char) : Option Nat :=
  if !cs.isEmpty && cs.all Char.isDigit then
    some (cs.foldl (fun a c => a * 10 + (c.toNat - 48)) 0)
  else none

/-- Python `int(s)`: optional surrounding whitespace, optional single sign,
then a non-empty digit run; anything else raises `ValueError`, modelled as
`none`.  (Digit-group underscores, a rarely used Python extension, are not
modelled.) -/
def pyInt (s : String) : Option Int :=
  match (pyStrip s).data with
  | '-' :: rest => (digitsVal? rest).map (fun n => -(n : Int))
  | '+' :: rest => (digitsVal? rest).map (fun n => (n : Int))
  | cs => (digitsVal? cs).map (fun n => (n : Int))

-- ------------------------------------------------------------------
-- GUI adapter (`app_gradio.py`)
-- ------------------------------------------------------------------

/-- Embeds `build_model_name` (`app_gradio.py`, lines 8-21): keyword →
model identifier with silent default fallback. -/
def build_model_name (choice : String) : String :=
  let c := pyLower choice
  if c = "bart" then "facebook/bart-large-cnn"
  else if c = "distilbart" then "sshleifer/distilbart-cnn-12-6"
  else if c = "t5" then "t5-small"
  else "facebook/bart-large-cnn"

/-- Embeds `build_model_name` of the batch-evaluation adapter
(`evaluate_rouge.py`, lines 64-72); textually a separate copy of the GUI
one, with the same cases and default. -/
def build_model_name_rouge (choice : String) : String :=
  let c := pyLower choice
  if c = "bart" then "facebook/bart-large-cnn"
  else if c = "distilbart" then "sshleifer/distilbart-cnn-12-6"
  else if c = "t5" then "t5-small"
  else "facebook/bart-large-cnn"

/-- Python truthiness of an optional string (`None` and `""` are falsy). -/
def pyTruthyOptStr : Option String → Bool
  | none => false
  | some s => s != ""

/-- Embeds the input-resolution step of `summarize_interface`
(`app_gradio.py`, lines 47-56): the file, when truthy, takes priority over
the text box; a read failure is the `Error reading file` message.  The
file system is modelled by `fs` (`some contents` when readable).
`text or ""` is the Python `or` on strings. -/
def summarize_interface_text (fs : String → Option String) (text : String)
    (file_path : Option String) : Except String String :=
  if pyTruthyOptStr file_path then
    match file_path with
    | some p =>
      match fs p with
      | some content => .ok content
      | none => .error "Error reading file"
    | none => .error "Error reading file"
  else
    .ok (if text != "" then text else "")

-- ------------------------------------------------------------------
-- CLI adapter (`summarize_cli.py`)
-- ------------------------------------------------------------------

/-- Result of one flag scan over the argument list. -/
inductive ExtractRes where
  | notPresent
  | missingValue
  | found (value : String) (rest : List String)
deriving DecidableEq, Repr

/-- One flag scan of `summarize_cli.py`: Python
`if flag in argv: i = argv.index(flag); value = argv[i+1];
del argv[i:i+2]`, with the `IndexError` on a missing value reported as
`missingValue`.  Finding the first occurrence, reading the next token and
deleting both is realized by structural recursion. -/
def extractFlag (flag : String) : List String → ExtractRes
  | [] => .notPresent
  | a :: rest =>
    if a = flag then
      match rest with
      | [] => .missingValue
      | v :: rest' => .found v rest'
    else
      match extractFlag flag rest with
      | .notPresent => .notPresent
      | .missingValue => .missingValue
      | .found v r => .found v (a :: r)

/-- The argument-processing failures of `summarize_cli.py`; each
constructor corresponds to one `sys.exit(1)` call site. -/
inductive CliError where
  | unknownModel (keyword : String)
  | modelUsage
  | maxUsage
  | minUsage
  | outUsage
  | missingInput
deriving DecidableEq, Repr

/-- Exit status passed to `sys.exit` at each argument-error site
(`summarize_cli.py`, lines 25, 32, 45, 58, 71, 79: all literally 1). -/
def CliError.exitCode : CliError → Nat
  | .unknownModel _ => 1
  | .modelUsage => 1
  | .maxUsage => 1
  | .minUsage => 1
  | .outUsage => 1
  | .missingInput => 1

/-- The CLI configuration assembled by the argument scans
(`summarize_cli.py`, lines 6-9 defaults). -/
structure CliConfig where
  model_name : String
  max_length : Int
  min_length : Int
  output_file : Option String
deriving DecidableEq, Repr

/-- The `--model` scan (`summarize_cli.py`, lines 12-32): keyword is
lowercased, the three known keywords map to identifiers, an unknown one
exits, a missing value token exits (the `IndexError` handler). -/
def scanModel (argv : List String) : Except CliError (String × List String) :=
  match extractFlag "--model" argv with
  | .notPresent => .ok ("facebook/bart-large-cnn", argv)
  | .missingValue => .error .modelUsage
  | .found v rest =>
    let s := pyLower v
    if s = "bart" then .ok ("facebook/bart-large-cnn", rest)
    else if s = "distilbart" then .ok ("sshleifer/distilbart-cnn-12-6", rest)
    else if s = "t5" then .ok ("t5-small", rest)
    else .error (.unknownModel s)

/-- A numeric flag scan (`--max` lines 35-45, `--min` lines 48-58): the
value token is parsed with `int(...)`; a malformed value (`ValueError`) or
a missing one (`IndexError`) hits the same handler and exits. -/
def scanIntFlag (flag : String) (dflt : Int) (err : CliError)
    (argv : List String) : Except CliError (Int × List String) :=
  match extractFlag flag argv with
  | .notPresent => .ok (dflt, argv)
  | .missingValue => .error err
  | .found v rest =>
    match pyInt v with
    | none => .error err
    | some n => .ok (n, rest)

/-- The `--out` scan (`summarize_cli.py`, lines 61-71): the value token is
taken verbatim; only a missing value exits. -/
def scanOut (argv : List String) : Except CliError (Option String × List String) :=
  match extractFlag "--out" argv with
  | .notPresent => .ok (none, argv)
  | .missingValue => .error .outUsage
  | .found v rest => .ok (some v, rest)

/-- The argument-processing pipeline from the `--out` scan on
(`summarize_cli.py`, lines 61-79): the `--out` scan followed by the
positional check `len(sys.argv) < 2`. -/
def parseFromOut (m : String) (mx mn : Int) (argv : List String) :
    Except CliError (CliConfig × List String) := do
  let (output_file, argv4) ← scanOut argv
  if argv4.length < 2 then
    .error .missingInput
  else
    .ok (⟨m, mx, mn, output_file⟩, argv4)

/-- The pipeline from the `--min` scan on (`summarize_cli.py`, lines
48-79). -/
def parseFromMin (m : String) (mx : Int) (argv : List String) :
    Except CliError (CliConfig × List String) := do
  let (min_length, argv3) ← scanIntFlag "--min" 20 .minUsage argv
  parseFromOut m mx min_length argv3

/-- The pipeline from the `--max` scan on (`summarize_cli.py`, lines
35-79). -/
def parseFromMax (m : String) (argv : List String) :
    Except CliError (CliConfig × List String) := do
  let (max_length, argv2) ← scanIntFlag "--max" 60 .maxUsage argv
  parseFromMin m max_length argv2

/-- The whole argument-processing phase of `summarize_cli.py` (lines
6-79): the four sequential flag scans over `sys.argv` (program name at
index 0) followed by the positional check `len(sys.argv) < 2`.  Returns
the configuration and the remaining argument list. -/
def parseCli (argv : List String) : Except CliError (CliConfig × List String) := do
  let (model_name, argv1) ← scanModel argv
  parseFromMax model_name argv1

/-- `arg_text = "".join(sys.argv[1:])` (`summarize_cli.py`, line 81):
the remaining tokens after the program name, joined without separators. -/
def arg_text (argv : List String) : String :=
  String.join (argv.drop 1)

/-- The input-text resolution of `summarize_cli.py` (lines 83-93): with
exactly one remaining argument that lowercases to a `.txt` suffix and is a
readable file (per `fs`), the file contents; otherwise `arg_text`. -/
def resolveInputText (fs : String → Option String) (argv : List String) : String :=
  match argv with
  | [_, a1] =>
    if pyEndsWith (pyLower a1) ".txt" then
      match fs a1 with
      | some content => content
      | none => arg_text argv
    else arg_text argv
  | _ => arg_text argv

/-- Observable output actions of the CLI after a successful summarization
(`summarize_cli.py`, lines 109-126), in order. -/
inductive CliEvent where
  | statsBlock (orig sum : Nat) (reduction : ℚ)
  | savedMsg (path : String)
  | writeErrorMsg (msg : String)
  | summaryBlock (summary : String)
deriving DecidableEq, Repr

/-- The output phase of `summarize_cli.py` (lines 109-126): stats are
printed, then `if output_file:` the write is attempted with the failure
caught and reported inline (`except Exception as e: print(...)`, no
`sys.exit`), then the summary is printed unconditionally.  The file system
write is modelled by `writeFile` (`.error e` = the raised exception). -/
def cliOutputPhase (writeFile : String → Except String Unit)
    (output_file : Option String) (summary : String)
    (orig sum : Nat) (red : ℚ) : List CliEvent :=
  [CliEvent.statsBlock orig sum red] ++
  (if pyTruthyOptStr output_file then
    match output_file with
    | some f =>
      match writeFile f with
      | .ok _ => [CliEvent.savedMsg f]
      | .error e => [CliEvent.writeErrorMsg e]
    | none => []
  else []) ++
  [CliEvent.summaryBlock summary]

-- ------------------------------------------------------------------
-- Batch evaluation adapter (`evaluate_rouge.py`)
-- ------------------------------------------------------------------

/-- One entry of the built-in evaluation set (`evaluate_rouge.py`,
lines 12-51): an id, an input text and a reference summary. -/
structure RougeSample where
  id : String
  text : String
  reference : String
deriving DecidableEq, Repr

/-- `SAMPLE_DATA` of `evaluate_rouge.py` (lines 12-51), verbatim. -/
def SAMPLE_DATA : List RougeSample :=
  [⟨"sample_1",
    "The company announced a new product update on Monday, introducing features aimed at improving performance and reliability. Executives said the update was shaped by customer feedback and would roll out gradually over the coming weeks. Analysts expect the changes to strengthen the product’s competitiveness, though they cautioned that adoption may vary across regions.",
    "The company released a product update with new performance and reliability features, rolling out over the next few weeks after customer feedback."⟩,
   ⟨"sample_2",
    "A research team published findings showing that improved data cleaning and feature engineering significantly boosted model stability. The authors evaluated multiple configurations and noted that even small preprocessing changes could affect accuracy. They recommended standardized evaluation protocols to improve reproducibility across future experiments.",
    "Researchers found that better preprocessing improves model stability and recommended standardized evaluation protocols for reproducibility."⟩,
   ⟨"sample_3",
    "During the meeting, stakeholders aligned on priorities for the next quarter. The team will focus on reducing latency, improving monitoring, and refining the user onboarding flow. A follow-up session is scheduled to finalize milestones and confirm ownership across engineering and product.",
    "Stakeholders agreed next-quarter priorities: reduce latency, improve monitoring, and refine onboarding, with a follow-up to finalize milestones and ownership."⟩]

/-- The sample selection of `evaluate_rouge.py` `main` (line 88):
`SAMPLE_DATA[: max(1, min(args.limit, len(SAMPLE_DATA)))]`.  The clamp
value is at least 1, so the Python slice is `List.take` of its `toNat`. -/
def samplesMain (limit : Int) : List RougeSample :=
  SAMPLE_DATA.take (max 1 (min limit (SAMPLE_DATA.length : Int))).toNat

-- ------------------------------------------------------------------
-- Helper lemmas
-- ------------------------------------------------------------------

lemma pyStrip_empty : pyStrip "" = "" := rfl

lemma pyWordCount_empty : pyWordCount "" = 0 := rfl

/-- The Python truthiness guard on the summary does not change the word
count: `"".split()` is already empty. -/
lemma summaryLen_eq_pyWordCount (s : String) : summaryLen s = pyWordCount s := by
  unfold summaryLen
  by_cases h : s = ""
  · simp [h, pyWordCount_empty]
  · simp [h]

-- ------------------------------------------------------------------
-- Claims C3, C4, C5, C10
-- ------------------------------------------------------------------

/-- C3: for every input string that is blank after trimming, the facade's
`summarize` fails with `EmptyInput` — uniformly in the external capability,
which is therefore not invoked — and for every string non-empty after
trimming the `EmptyInput` branch is not taken and the capability's output
is returned. -/
theorem summarize_empty_input_exactly (pipeline : String → String) (text : String) :
    (pyStrip text = "" →
      TextSummarizer.summarize pipeline text = .error .emptyInput) ∧
    (pyStrip text ≠ "" →
      TextSummarizer.summarize pipeline text = .ok (pipeline text)) := by
  unfold TextSummarizer.summarize
  constructor
  · intro h
    simp [h]
  · intro h
    have htext : text ≠ "" := by
      intro he
      exact h (he ▸ pyStrip_empty)
    simp [h, htext]

/-- Witness for C3 at the blank input `"   "` and the non-blank `"hi"`. -/
theorem summarize_empty_input_exactly_witness :
    TextSummarizer.summarize (fun _ => "S") "   " = .error .emptyInput ∧
    TextSummarizer.summarize (fun _ => "S") "hi" = .ok "S" :=
  ⟨(summarize_empty_input_exactly (fun _ => "S") "   ").1 (by decide),
   (summarize_empty_input_exactly (fun _ => "S") "hi").2 (by decide)⟩

/-- C4: for every original with positive word count `N` and summary with
word count `M`, `compute_length_reduction` returns exactly
`(N, M, 1 - M/N)` with no clamping; in particular when `M > N` the
reduction fraction is negative and returned as-is. -/
theorem compute_length_reduction_exact (original summary : String)
    (h : 0 < pyWordCount original) :
    compute_length_reduction original summary =
      (pyWordCount original, pyWordCount summary,
        1 - (pyWordCount summary : ℚ) / (pyWordCount original : ℚ)) ∧
    (pyWordCount original < pyWordCount summary →
      (compute_length_reduction original summary).2.2 < 0) := by
  have hne : pyWordCount original ≠ 0 := Nat.pos_iff_ne_zero.mp h
  have heq : compute_length_reduction original summary =
      (pyWordCount original, pyWordCount summary,
        1 - (pyWordCount summary : ℚ) / (pyWordCount original : ℚ)) := by
    unfold compute_length_reduction
    simp [hne, summaryLen_eq_pyWordCount]
  refine ⟨heq, fun hlt => ?_⟩
  rw [heq]
  have h0 : (0 : ℚ) < (pyWordCount original : ℚ) := by exact_mod_cast h
  have h1 : (1 : ℚ) < (pyWordCount summary : ℚ) / (pyWordCount original : ℚ) := by
    rw [one_lt_div h0]
    exact_mod_cast hlt
  simpa using sub_neg.mpr h1

/-- Witness for C4 at `original = "one two"` (N = 2) and
`summary = "a b c"` (M = 3 > N). -/
theorem compute_length_reduction_exact_witness :
    0 < pyWordCount "one two" ∧
    (compute_length_reduction "one two" "a b c" =
      (pyWordCount "one two", pyWordCount "a b c",
        1 - (pyWordCount "a b c" : ℚ) / (pyWordCount "one two" : ℚ)) ∧
    (pyWordCount "one two" < pyWordCount "a b c" →
      (compute_length_reduction "one two" "a b c").2.2 < 0)) :=
  ⟨by decide, compute_length_reduction_exact "one two" "a b c" (by decide)⟩

/-- C5: for every original with word count 0 (and any summary), the metric
returns `(0, summaryWordCount, 0.0)`: the division branch, the only place
a division occurs, is never reached with a zero divisor. -/
theorem compute_length_reduction_zero_original (original summary : String)
    (h : pyWordCount original = 0) :
    compute_length_reduction original summary = (0, pyWordCount summary, 0) := by
  unfold compute_length_reduction
  simp [h, summaryLen_eq_pyWordCount]

/-- Witness for C5 at the all-whitespace original `"   "` and the summary
`"hello world"`. -/
theorem compute_length_reduction_zero_original_witness :
    pyWordCount "   " = 0 ∧
    compute_length_reduction "   " "hello world" = (0, pyWordCount "hello world", 0) :=
  ⟨by decide, compute_length_reduction_zero_original "   " "hello world" (by decide)⟩

/-- C1 counterexample: on the argument sequence
`--max 80 hello world this is a test` the adapter parses
`maxLength = 80`, `minLength = 20`, the default model identifier — but the
resolved input text is the remaining tokens joined *without* separators
(`"".join(sys.argv[1:])`), so it is not `"hello world this is a test"`. -/
theorem cli_max80_scenario_counterexample :
    parseCli ["summarize_cli.py", "--max", "80", "hello", "world", "this", "is",
        "a", "test"] =
      .ok (⟨"facebook/bart-large-cnn", 80, 20, none⟩,
        ["summarize_cli.py", "hello", "world", "this", "is", "a", "test"]) ∧
    resolveInputText (fun _ => none)
        ["summarize_cli.py", "hello", "world", "this", "is", "a", "test"] ≠
      "hello world this is a test" := by
  exact ⟨rfl, by decide⟩

/-- C1 amended: the scenario's parsed configuration is as claimed
(`maxLength = 80`, `minLength = 20`, default model, no output file), and
the resolved input text is the remaining tokens concatenated without
separators: `"helloworldthisisatest"`. -/
theorem cli_max80_scenario_amended :
    parseCli ["summarize_cli.py", "--max", "80", "hello", "world", "this", "is",
        "a", "test"] =
      .ok (⟨"facebook/bart-large-cnn", 80, 20, none⟩,
        ["summarize_cli.py", "hello", "world", "this", "is", "a", "test"]) ∧
    resolveInputText (fun _ => none)
        ["summarize_cli.py", "hello", "world", "this", "is", "a", "test"] =
      "helloworldthisisatest" := by
  exact ⟨rfl, by decide⟩

/-- C2 counterexample: model-keyword resolution is not total in the CLI
adapter: the unrecognized keyword `gpt` does not map to the default
identifier — the argument scan fails with `unknownModel` and the process
exits with status 1. -/
theorem model_resolution_total_counterexample :
    parseCli ["summarize_cli.py", "--model", "gpt", "some", "text"] =
      .error (.unknownModel "gpt") ∧
    CliError.exitCode (.unknownModel "gpt") = 1 := by
  exact ⟨rfl, rfl⟩

/-- If the `--model` scan fails, the whole argument-processing phase fails
with the same error. -/
lemma parseCli_model_error (argv : List String) (e : CliError)
    (h : scanModel argv = .error e) : parseCli argv = .error e := by
  unfold parseCli
  rw [h]
  rfl

/-- C2 amended: model-keyword resolution is total, with the default
identifier for every keyword outside `{bart, distilbart, t5}`, in the GUI
and batch-evaluation adapters (`build_model_name` in both files); the CLI
adapter instead rejects an unrecognized keyword with the `unknownModel`
error (exit status 1). -/
theorem model_resolution_amended (s : String) (argv : List String) :
    build_model_name s ≠ "" ∧
    build_model_name_rouge s ≠ "" ∧
    (pyLower s ≠ "bart" → pyLower s ≠ "distilbart" → pyLower s ≠ "t5" →
      build_model_name s = "facebook/bart-large-cnn" ∧
      build_model_name_rouge s = "facebook/bart-large-cnn") ∧
    (∀ rest, extractFlag "--model" argv = .found s rest →
      pyLower s ≠ "bart" → pyLower s ≠ "distilbart" → pyLower s ≠ "t5" →
      parseCli argv = .error (.unknownModel (pyLower s))) := by
  refine ⟨?_, ?_, ?_, ?_⟩
  · simp only [build_model_name]
    split_ifs <;> simp
  · simp only [build_model_name_rouge]
    split_ifs <;> simp
  · intro h1 h2 h3
    constructor
    · simp only [build_model_name]
      simp [h1, h2, h3]
    · simp only [build_model_name_rouge]
      simp [h1, h2, h3]
  · intro rest hfound h1 h2 h3
    apply parseCli_model_error
    unfold scanModel
    rw [hfound]
    simp [h1, h2, h3]

/-- Witness for C2's amended claim at the unrecognized keyword `gpt` and
the concrete CLI invocation `--model gpt x`. -/
theorem model_resolution_amended_witness :
    build_model_name "gpt" ≠ "" ∧
    build_model_name_rouge "gpt" ≠ "" ∧
    (build_model_name "gpt" = "facebook/bart-large-cnn" ∧
      build_model_name_rouge "gpt" = "facebook/bart-large-cnn") ∧
    parseCli ["prog", "--model", "gpt", "x"] = .error (.unknownModel (pyLower "gpt")) :=
  ⟨(model_resolution_amended "gpt" ["prog", "--model", "gpt", "x"]).1,
   (model_resolution_amended "gpt" ["prog", "--model", "gpt", "x"]).2.1,
   (model_resolution_amended "gpt" ["prog", "--model", "gpt", "x"]).2.2.1
     (by decide) (by decide) (by decide),
   (model_resolution_amended "gpt" ["prog", "--model", "gpt", "x"]).2.2.2
     ["prog", "x"] (by decide) (by decide) (by decide) (by decide)⟩

/-- C8: in the GUI adapter, when a truthy file path is supplied and
readable and the free text is non-empty, the resolved input text is the
file's full contents, never the free text. -/
theorem gui_file_priority (fs : String → Option String) (text p c : String)
    (hp : p ≠ "") (hread : fs p = some c) (_htext : text ≠ "") :
    summarize_interface_text fs text (some p) = .ok c ∧
    (c ≠ text → summarize_interface_text fs text (some p) ≠ .ok text) := by
  have h1 : summarize_interface_text fs text (some p) = .ok c := by
    unfold summarize_interface_text pyTruthyOptStr
    simp [hp, hread]
  refine ⟨h1, fun hct hcontra => hct ?_⟩
  rw [h1] at hcontra
  exact Except.ok.inj hcontra

/-- Witness for C8: file `f.txt` with contents `FILE CONTENTS` wins over
the non-empty free text `free text`. -/
theorem gui_file_priority_witness :
    summarize_interface_text (fun _ => some "FILE CONTENTS") "free text" (some "f.txt") =
      .ok "FILE CONTENTS" ∧
    ("FILE CONTENTS" ≠ "free text" →
      summarize_interface_text (fun _ => some "FILE CONTENTS") "free text"
        (some "f.txt") ≠ .ok "free text") :=
  gui_file_priority (fun _ => some "FILE CONTENTS") "free text" "f.txt"
    "FILE CONTENTS" (by decide) rfl (by decide)

/-- C9: a failed write to the `--out` file after a successful
summarization does not abort the run: the output phase reports the error
inline and still prints the already-computed summary, with no exit. -/
theorem cli_out_write_failure_nonfatal (writeFile : String → Except String Unit)
    (f summary : String) (orig sum : Nat) (red : ℚ) (e : String)
    (hf : f ≠ "") (hw : writeFile f = .error e) :
    cliOutputPhase writeFile (some f) summary orig sum red =
      [CliEvent.statsBlock orig sum red, CliEvent.writeErrorMsg e,
        CliEvent.summaryBlock summary] := by
  unfold cliOutputPhase pyTruthyOptStr
  simp [hf, hw]

/-- Witness for C9: a write of `out.txt` failing with `disk full` still
yields the summary block after the inline error. -/
theorem cli_out_write_failure_nonfatal_witness :
    cliOutputPhase (fun _ => .error "disk full") (some "out.txt") "THE SUMMARY"
        4 2 (1/2) =
      [CliEvent.statsBlock 4 2 (1/2), CliEvent.writeErrorMsg "disk full",
        CliEvent.summaryBlock "THE SUMMARY"] :=
  cli_out_write_failure_nonfatal (fun _ => .error "disk full") "out.txt"
    "THE SUMMARY" 4 2 (1/2) "disk full" (by decide) rfl

/-- C10: the batch evaluation adapter clamps `--limit` to `[1, 3]`: for
every integer limit the number of evaluated samples is
`max 1 (min limit 3)`, so non-positive limits still evaluate one sample
and limits above three evaluate exactly three. -/
theorem samplesMain_length_clamped (limit : Int) :
    ((samplesMain limit).length : Int) = max 1 (min limit 3) := by
  have hlen : SAMPLE_DATA.length = 3 := rfl
  unfold samplesMain
  rw [List.length_take, hlen]
  omega

-- ------------------------------------------------------------------
-- Claim C6: the CLI exit-status characterization
-- ------------------------------------------------------------------

/-- Whether a flag scan hit a missing value token (the `IndexError`). -/
def isMissingValue : ExtractRes → Bool
  | .missingValue => true
  | _ => false

/-- The argument list after the `--model` scan, when that scan did not
exit. -/
def afterModel (argv : List String) : Option (List String) :=
  match scanModel argv with
  | .ok (_, rest) => some rest
  | .error _ => none

/-- The argument list after the `--max` scan, when no scan so far exited. -/
def afterMax (argv : List String) : Option (List String) :=
  match afterModel argv with
  | some a1 =>
    match scanIntFlag "--max" 60 .maxUsage a1 with
    | .ok (_, rest) => some rest
    | .error _ => none
  | none => none

/-- The argument list after the `--min` scan, when no scan so far exited. -/
def afterMin (argv : List String) : Option (List String) :=
  match afterMax argv with
  | some a2 =>
    match scanIntFlag "--min" 20 .minUsage a2 with
    | .ok (_, rest) => some rest
    | .error _ => none
  | none => none

/-- The argument list after the `--out` scan, when no scan so far exited. -/
def afterOut (argv : List String) : Option (List String) :=
  match afterMin argv with
  | some a3 =>
    match scanOut a3 with
    | .ok (_, rest) => some rest
    | .error _ => none
  | none => none

/-- C6 condition: the input is missing (every scan passed and fewer than
two tokens remain, i.e. nothing beyond the program name). -/
def condMissingInput (argv : List String) : Bool :=
  match afterOut argv with
  | some a4 => a4.length < 2
  | none => false

/-- C6 condition: the `--model` keyword is present with a value outside
the recognized set. -/
def condUnknownModel (argv : List String) : Bool :=
  match extractFlag "--model" argv with
  | .found v _ =>
    !(pyLower v == "bart" || pyLower v == "distilbart" || pyLower v == "t5")
  | _ => false

/-- A numeric flag present (at its scan's stage) whose value token does
not parse as an integer. -/
def intFlagMalformed (flag : String) (a : List String) : Bool :=
  match extractFlag flag a with
  | .found v _ => (pyInt v).isNone
  | _ => false

/-- C6 condition: a numeric flag value (`--max` or `--min`) is malformed. -/
def condMalformedNumeric (argv : List String) : Bool :=
  (match afterModel argv with
   | some a1 => intFlagMalformed "--max" a1
   | none => false) ||
  (match afterMax argv with
   | some a2 => intFlagMalformed "--min" a2
   | none => false)

/-- C6 condition: some flag's value token is missing (the flag is the last
token at its scan's stage). -/
def condMissingFlagValue (argv : List String) : Bool :=
  isMissingValue (extractFlag "--model" argv) ||
  (match afterModel argv with
   | some a1 => isMissingValue (extractFlag "--max" a1)
   | none => false) ||
  (match afterMax argv with
   | some a2 => isMissingValue (extractFlag "--min" a2)
   | none => false) ||
  (match afterMin argv with
   | some a3 => isMissingValue (extractFlag "--out" a3)
   | none => false)

lemma scanModel_ok_elim {argv : List String} {m : String} {a1 : List String}
    (h : scanModel argv = .ok (m, a1)) :
    condUnknownModel argv = false ∧
    isMissingValue (extractFlag "--model" argv) = false ∧
    afterModel argv = some a1 := by
  unfold scanModel at h
  unfold condUnknownModel isMissingValue afterModel scanModel
  rcases hx : extractFlag "--model" argv with _ | _ | ⟨v, r⟩ <;> rw [hx] at h <;>
    simp_all
  split_ifs at h <;> simp_all

lemma scanModel_err_elim {argv : List String} {e : CliError}
    (h : scanModel argv = .error e) :
    (condUnknownModel argv || isMissingValue (extractFlag "--model" argv)) = true ∧
    afterModel argv = none := by
  unfold scanModel at h
  unfold condUnknownModel isMissingValue afterModel scanModel
  rcases hx : extractFlag "--model" argv with _ | _ | ⟨v, r⟩ <;> rw [hx] at h <;>
    simp_all
  split_ifs at h <;> simp_all

lemma scanIntFlag_ok_elim {flag : String} {d : Int} {err : CliError}
    {a : List String} {n : Int} {a2 : List String}
    (h : scanIntFlag flag d err a = .ok (n, a2)) :
    intFlagMalformed flag a = false ∧
    isMissingValue (extractFlag flag a) = false := by
  unfold scanIntFlag at h
  unfold intFlagMalformed isMissingValue
  rcases hx : extractFlag flag a with _ | _ | ⟨v, r⟩ <;> rw [hx] at h <;> simp_all
  rcases hp : pyInt v with _ | k <;> rw [hp] at h <;> simp_all

lemma scanIntFlag_err_elim {flag : String} {d : Int} {err : CliError}
    {a : List String} {e : CliError}
    (h : scanIntFlag flag d err a = .error e) :
    (intFlagMalformed flag a || isMissingValue (extractFlag flag a)) = true := by
  unfold scanIntFlag at h
  unfold intFlagMalformed isMissingValue
  rcases hx : extractFlag flag a with _ | _ | ⟨v, r⟩ <;> rw [hx] at h <;> simp_all
  rcases hp : pyInt v with _ | k <;> rw [hp] at h <;> simp_all

lemma scanOut_ok_elim {a : List String} {o : Option String} {a4 : List String}
    (h : scanOut a = .ok (o, a4)) :
    isMissingValue (extractFlag "--out" a) = false := by
  unfold scanOut at h
  unfold isMissingValue
  rcases hx : extractFlag "--out" a with _ | _ | ⟨v, r⟩ <;> rw [hx] at h <;> simp_all

lemma scanOut_err_elim {a : List String} {e : CliError}
    (h : scanOut a = .error e) :
    isMissingValue (extractFlag "--out" a) = true := by
  unfold scanOut at h
  unfold isMissingValue
  rcases hx : extractFlag "--out" a with _ | _ | ⟨v, r⟩ <;> rw [hx] at h <;> simp_all

/-- C6: the CLI argument-processing phase exits with status 1 exactly when
the input is missing, the model keyword is unknown, a numeric flag value
is malformed, or a flag's value token is missing; on every other argument
sequence it produces a configuration without exiting, and every
argument-error exit uses status 1. -/
theorem cli_exit_status_characterization (argv : List String) :
    ((parseCli argv).isOk = false ↔
      (condMissingInput argv || condUnknownModel argv ||
        condMalformedNumeric argv || condMissingFlagValue argv) = true) ∧
    (∀ e : CliError, CliError.exitCode e = 1) := by
  refine ⟨?_, fun e => by cases e <;> rfl⟩
  rcases hM : scanModel argv with eM | ⟨m, a1⟩
  · obtain ⟨hc, ham⟩ := scanModel_err_elim hM
    have hpc : (parseCli argv).isOk = false := by
      simp [parseCli, hM, Except.bind, Bind.bind, Except.isOk, Except.toBool]
    have hc2 : condUnknownModel argv = true ∨
        isMissingValue (extractFlag "--model" argv) = true := by simpa using hc
    rcases hc2 with h | h
    · simp [hpc, condMissingInput, condMalformedNumeric, condMissingFlagValue,
        ham, h]
    · simp [hpc, condMissingInput, condMalformedNumeric, condMissingFlagValue,
        ham, h]
  · obtain ⟨hcu, hcm, ham⟩ := scanModel_ok_elim hM
    rcases hX : scanIntFlag "--max" 60 .maxUsage a1 with eX | ⟨mx, a2⟩
    · have hc := scanIntFlag_err_elim hX
      have hamax : afterMax argv = none := by simp [afterMax, ham, hX]
      have hpc : (parseCli argv).isOk = false := by
        simp [parseCli, parseFromMax, hM, hX, Except.bind, Bind.bind,
          Except.isOk, Except.toBool]
      have hc2 : intFlagMalformed "--max" a1 = true ∨
          isMissingValue (extractFlag "--max" a1) = true := by simpa using hc
      rcases hc2 with h | h
      · simp [hpc, condMissingInput, condMalformedNumeric, condMissingFlagValue,
          afterOut, afterMin, hamax, ham, hcu, hcm, h]
      · simp [hpc, condMissingInput, condMalformedNumeric, condMissingFlagValue,
          afterOut, afterMin, hamax, ham, hcu, hcm, h]
    · obtain ⟨hxm, hxv⟩ := scanIntFlag_ok_elim hX
      have hamax : afterMax argv = some a2 := by simp [afterMax, ham, hX]
      rcases hN : scanIntFlag "--min" 20 .minUsage a2 with eN | ⟨mn, a3⟩
      · have hc := scanIntFlag_err_elim hN
        have hamin : afterMin argv = none := by simp [afterMin, hamax, hN]
        have hpc : (parseCli argv).isOk = false := by
          simp [parseCli, parseFromMax, parseFromMin, hM, hX, hN, Except.bind,
            Bind.bind, Except.isOk, Except.toBool]
        have hc2 : intFlagMalformed "--min" a2 = true ∨
            isMissingValue (extractFlag "--min" a2) = true := by simpa using hc
        rcases hc2 with h | h
        · simp [hpc, condMissingInput, condMalformedNumeric, condMissingFlagValue,
            afterOut, hamin, hamax, ham, hcu, hcm, hxm, hxv, h]
        · simp [hpc, condMissingInput, condMalformedNumeric, condMissingFlagValue,
            afterOut, hamin, hamax, ham, hcu, hcm, hxm, hxv, h]
      · obtain ⟨hnm, hnv⟩ := scanIntFlag_ok_elim hN
        have hamin : afterMin argv = some a3 := by simp [afterMin, hamax, hN]
        rcases hO : scanOut a3 with eO | ⟨o, a4⟩
        · have hc := scanOut_err_elim hO
          have hao : afterOut argv = none := by simp [afterOut, hamin, hO]
          have hpc : (parseCli argv).isOk = false := by
            simp [parseCli, parseFromMax, parseFromMin, parseFromOut, hM, hX, hN,
              hO, Except.bind, Bind.bind, Except.isOk, Except.toBool]
          simp [hpc, condMissingInput, condMalformedNumeric, condMissingFlagValue,
            hao, hamin, hamax, ham, hcu, hcm, hxm, hxv, hnm, hnv, hc]
        · have hov := scanOut_ok_elim hO
          have hao : afterOut argv = some a4 := by simp [afterOut, hamin, hO]
          by_cases hlen : a4.length < 2
          · have hpc : (parseCli argv).isOk = false := by
              simp [parseCli, parseFromMax, parseFromMin, parseFromOut, hM, hX,
                hN, hO, hlen, Except.bind, Bind.bind, Except.isOk, Except.toBool]
            simp [hpc, condMissingInput, condMalformedNumeric, condMissingFlagValue,
              hao, hamin, hamax, ham, hcu, hcm, hxm, hxv, hnm, hnv, hov, hlen]
          · have hpc : (parseCli argv).isOk = true := by
              simp [parseCli, parseFromMax, parseFromMin, parseFromOut, hM, hX,
                hN, hO, hlen, Except.bind, Bind.bind, Except.isOk, Except.toBool]
            simp [hpc, condMissingInput, condMalformedNumeric, condMissingFlagValue,
              hao, hamin, hamax, ham, hcu, hcm, hxm, hxv, hnm, hnv, hov, hlen]

-- ------------------------------------------------------------------
-- Claim C7: order-independence of CLI flag extraction
-- ------------------------------------------------------------------

/-- A token-level description of a CLI argument sequence: a flag with the
value token that follows it, or a plain (non-flag) token. -/
inductive CliItem where
  | pair (flag value : String)
  | plain (tok : String)
deriving DecidableEq, Repr

/-- The argument tokens an item list denotes, in order. -/
def renderItems : List CliItem → List String
  | [] => []
  | .pair f v :: rest => f :: v :: renderItems rest
  | .plain t :: rest => t :: renderItems rest

/-- The four flag tokens recognized by `summarize_cli.py`. -/
def cliFlags : List String := ["--model", "--max", "--min", "--out"]

/-- The value of the first pair carrying flag `g`, if any. -/
def lookupPair (g : String) : List CliItem → Option String
  | [] => none
  | .pair f v :: rest => if f = g then some v else lookupPair g rest
  | .plain _ :: rest => lookupPair g rest

/-- Remove the first pair carrying flag `g`, if any. -/
def erasePair (g : String) : List CliItem → List CliItem
  | [] => []
  | .pair f v :: rest => if f = g then rest else .pair f v :: erasePair g rest
  | .plain t :: rest => .plain t :: erasePair g rest

/-- The plain tokens of an item list, in order. -/
def plainsOf : List CliItem → List String
  | [] => []
  | .pair _ _ :: rest => plainsOf rest
  | .plain t :: rest => t :: plainsOf rest

/-- An item is unambiguous when its pair carries a recognized flag whose
value is not itself a flag token, and a plain token is not a flag token. -/
def itemOkB : CliItem → Bool
  | .pair f v => decide (f ∈ cliFlags) && !(decide (v ∈ cliFlags))
  | .plain t => !(decide (t ∈ cliFlags))

/-- The flag of a pair item. -/
def flagOf : CliItem → Option String
  | .pair f _ => some f
  | .plain _ => none

/-- Well-formed item list: every item unambiguous and no flag repeated. -/
def wfItems (items : List CliItem) : Prop :=
  items.all itemOkB = true ∧ (items.filterMap flagOf).Nodup

instance (items : List CliItem) : Decidable (wfItems items) := by
  unfold wfItems
  infer_instance

lemma wfItems_cons {it : CliItem} {rest : List CliItem}
    (h : wfItems (it :: rest)) : wfItems rest := by
  obtain ⟨hall, hnd⟩ := h
  refine ⟨?_, ?_⟩
  · simp only [List.all_cons, Bool.and_eq_true] at hall
    exact hall.2
  · cases it <;> simp only [flagOf, List.filterMap_cons] at hnd
    · exact (List.nodup_cons.mp hnd).2
    · exact hnd

lemma extractFlag_cons_self (g v : String) (l : List String) :
    extractFlag g (g :: v :: l) = .found v l := by
  simp [extractFlag]

lemma extractFlag_cons_ne (g a : String) (l : List String) (h : a ≠ g) :
    extractFlag g (a :: l) =
      match extractFlag g l with
      | .notPresent => .notPresent
      | .missingValue => .missingValue
      | .found v r => .found v (a :: r) := by
  simp [extractFlag, h]

/-- On a rendered well-formed item list, a recognized flag's scan finds
exactly the (unique) pair carrying it, and removes exactly that pair. -/
lemma extractFlag_render (g : String) (hg : g ∈ cliFlags) (items : List CliItem)
    (hwf : wfItems items) :
    extractFlag g (renderItems items) =
      match lookupPair g items with
      | none => .notPresent
      | some v => .found v (renderItems (erasePair g items)) := by
  induction items with
  | nil => rfl
  | cons it rest ih =>
    have hrest := wfItems_cons hwf
    have hok : itemOkB it = true := by
      have := hwf.1
      simp only [List.all_cons, Bool.and_eq_true] at this
      exact this.1
    cases it with
    | pair f v =>
      have hfv : f ∈ cliFlags ∧ v ∉ cliFlags := by
        simpa [itemOkB] using hok
      by_cases hf : f = g
      · subst hf
        simp only [renderItems, lookupPair, erasePair, if_pos rfl]
        exact extractFlag_cons_self f v (renderItems rest)
      · have hvg : v ≠ g := by
          intro he
          subst he
          exact hfv.2 hg
        simp only [renderItems, lookupPair, erasePair, if_neg hf]
        rw [extractFlag_cons_ne g f _ (fun he => hf he),
          extractFlag_cons_ne g v _ hvg, ih hrest]
        cases lookupPair g rest <;> simp [renderItems]
    | plain t =>
      have htg : t ≠ g := by
        intro he
        subst he
        have : t ∉ cliFlags := by simpa [itemOkB] using hok
        exact this hg
      simp only [renderItems, lookupPair, erasePair]
      rw [extractFlag_cons_ne g t _ htg, ih hrest]
      cases lookupPair g rest <;> simp [renderItems]

lemma erasePair_not_found (g : String) (items : List CliItem)
    (h : lookupPair g items = none) : erasePair g items = items := by
  induction items with
  | nil => rfl
  | cons it rest ih =>
    cases it with
    | pair f v =>
      by_cases hf : f = g
      · simp [lookupPair, hf] at h
      · simp only [lookupPair, if_neg hf] at h
        simp [erasePair, hf, ih h]
    | plain t =>
      simp only [lookupPair] at h
      simp [erasePair, ih h]

lemma erasePair_sublist (g : String) (items : List CliItem) :
    List.Sublist (erasePair g items) items := by
  induction items with
  | nil => simp [erasePair]
  | cons it rest ih =>
    cases it with
    | pair f v =>
      by_cases hf : f = g
      · simp only [erasePair, if_pos hf]
        exact List.sublist_cons_self _ _
      · simp only [erasePair, if_neg hf]
        exact ih.cons₂ _
    | plain t =>
      simp only [erasePair]
      exact ih.cons₂ _

lemma wfItems_erase (g : String) {items : List CliItem} (h : wfItems items) :
    wfItems (erasePair g items) := by
  have hs := erasePair_sublist g items
  constructor
  · have h1 := h.1
    rw [List.all_eq_true] at h1 ⊢
    exact fun x hx => h1 x (hs.subset hx)
  · exact h.2.sublist (hs.filterMap flagOf)

lemma lookupPair_erase (g g' : String) (h : g' ≠ g) (items : List CliItem) :
    lookupPair g' (erasePair g items) = lookupPair g' items := by
  induction items with
  | nil => rfl
  | cons it rest ih =>
    cases it with
    | pair f v =>
      by_cases hf : f = g
      · have hgg : g ≠ g' := fun he => h he.symm
        simp [erasePair, hf, lookupPair, hgg]
      · by_cases hf' : f = g'
        · simp [erasePair, hf, lookupPair, hf', h]
        · simp [erasePair, hf, lookupPair, hf', ih]
    | plain t =>
      simp [erasePair, lookupPair, ih]

lemma plainsOf_erase (g : String) (items : List CliItem) :
    plainsOf (erasePair g items) = plainsOf items := by
  induction items with
  | nil => rfl
  | cons it rest ih =>
    cases it with
    | pair f v =>
      by_cases hf : f = g
      · simp [erasePair, hf, plainsOf]
      · simp [erasePair, hf, plainsOf, ih]
    | plain t =>
      simp [erasePair, plainsOf, ih]

lemma lookupPair_eq_none_iff (g : String) (items : List CliItem) :
    lookupPair g items = none ↔ g ∉ items.filterMap flagOf := by
  induction items with
  | nil => simp [lookupPair]
  | cons it rest ih =>
    cases it with
    | pair f v =>
      by_cases hf : f = g
      · subst hf
        simp [lookupPair, flagOf]
      · have hgf : g ≠ f := fun he => hf he.symm
        simp [lookupPair, hf, flagOf, ih, hgf]
    | plain t =>
      simp [lookupPair, flagOf, ih]

lemma lookupPair_erase_self (g : String) (items : List CliItem)
    (hnd : (items.filterMap flagOf).Nodup) :
    lookupPair g (erasePair g items) = none := by
  induction items with
  | nil => rfl
  | cons it rest ih =>
    cases it with
    | pair f v =>
      have hnd' : ((CliItem.pair f v :: rest).filterMap flagOf) =
          f :: rest.filterMap flagOf := by simp [flagOf]
      rw [hnd'] at hnd
      obtain ⟨hnotin, hrest⟩ := List.nodup_cons.mp hnd
      by_cases hf : f = g
      · subst hf
        simp only [erasePair, if_pos rfl]
        exact (lookupPair_eq_none_iff f rest).mpr hnotin
      · simp only [erasePair, if_neg hf, lookupPair, if_neg hf]
        exact ih hrest
    | plain t =>
      simp only [erasePair, lookupPair]
      apply ih
      simpa [flagOf] using hnd

lemma renderItems_eq_plains (items : List CliItem)
    (h : items.filterMap flagOf = []) : renderItems items = plainsOf items := by
  induction items with
  | nil => rfl
  | cons it rest ih =>
    cases it with
    | pair f v => simp [flagOf, List.filterMap_cons] at h
    | plain t =>
      simp only [flagOf, List.filterMap_cons] at h
      simp [renderItems, plainsOf, ih h]

/-- After erasing all four flags' pairs from a well-formed item list, the
rendered tokens are exactly the plain tokens of the original list. -/
lemma render_eraseAll_eq_plains (items : List CliItem) (hwf : wfItems items) :
    renderItems (erasePair "--out" (erasePair "--min" (erasePair "--max"
      (erasePair "--model" items)))) = plainsOf items := by
  have w1 := wfItems_erase "--model" hwf
  have w2 := wfItems_erase "--max" w1
  have w3 := wfItems_erase "--min" w2
  have w4 := wfItems_erase "--out" w3
  have hmo : lookupPair "--model"
      (erasePair "--out" (erasePair "--min" (erasePair "--max"
        (erasePair "--model" items)))) = none := by
    rw [lookupPair_erase "--out" "--model" (by decide),
      lookupPair_erase "--min" "--model" (by decide),
      lookupPair_erase "--max" "--model" (by decide)]
    exact lookupPair_erase_self "--model" items hwf.2
  have hmx : lookupPair "--max"
      (erasePair "--out" (erasePair "--min" (erasePair "--max"
        (erasePair "--model" items)))) = none := by
    rw [lookupPair_erase "--out" "--max" (by decide),
      lookupPair_erase "--min" "--max" (by decide)]
    exact lookupPair_erase_self "--max" _ w1.2
  have hmi : lookupPair "--min"
      (erasePair "--out" (erasePair "--min" (erasePair "--max"
        (erasePair "--model" items)))) = none := by
    rw [lookupPair_erase "--out" "--min" (by decide)]
    exact lookupPair_erase_self "--min" _ w2.2
  have hou : lookupPair "--out"
      (erasePair "--out" (erasePair "--min" (erasePair "--max"
        (erasePair "--model" items)))) = none :=
    lookupPair_erase_self "--out" _ w3.2
  have hnil : ((erasePair "--out" (erasePair "--min" (erasePair "--max"
      (erasePair "--model" items)))).filterMap flagOf) = [] := by
    rw [List.eq_nil_iff_forall_not_mem]
    intro g hgmem
    obtain ⟨it, hit, hfl⟩ := List.mem_filterMap.mp hgmem
    cases it with
    | plain t => simp [flagOf] at hfl
    | pair f v =>
      simp only [flagOf, Option.some.injEq] at hfl
      subst hfl
      have hok : itemOkB (CliItem.pair f v) = true := by
        have h1 := w4.1
        rw [List.all_eq_true] at h1
        exact h1 _ hit
      have hgood : f ∈ cliFlags ∧ v ∉ cliFlags := by simpa [itemOkB] using hok
      have hg := hgood.1
      have hmem : f ∈ ((erasePair "--out" (erasePair "--min" (erasePair "--max"
          (erasePair "--model" items)))).filterMap flagOf) := hgmem
      simp only [cliFlags, List.mem_cons, List.not_mem_nil, or_false] at hg
      rcases hg with h | h | h | h <;> subst h
      · exact ((lookupPair_eq_none_iff _ _).mp hmo) hmem
      · exact ((lookupPair_eq_none_iff _ _).mp hmx) hmem
      · exact ((lookupPair_eq_none_iff _ _).mp hmi) hmem
      · exact ((lookupPair_eq_none_iff _ _).mp hou) hmem
  rw [renderItems_eq_plains _ hnil, plainsOf_erase, plainsOf_erase,
    plainsOf_erase, plainsOf_erase]

lemma extractFlag_prog_render (g : String) (hg : g ∈ cliFlags) (prog : String)
    (hprog : prog ∉ cliFlags) (items : List CliItem) (hwf : wfItems items) :
    extractFlag g (prog :: renderItems items) =
      match lookupPair g items with
      | none => .notPresent
      | some v => .found v (prog :: renderItems (erasePair g items)) := by
  have hne : prog ≠ g := fun he => hprog (he ▸ hg)
  rw [extractFlag_cons_ne g prog _ hne, extractFlag_render g hg items hwf]
  cases lookupPair g items <;> rfl

/-- Canonical result of the `--model` scan as a function of the looked-up
keyword alone. -/
def canonModel : Option String → Except CliError String
  | none => .ok "facebook/bart-large-cnn"
  | some v =>
    let s := pyLower v
    if s = "bart" then .ok "facebook/bart-large-cnn"
    else if s = "distilbart" then .ok "sshleifer/distilbart-cnn-12-6"
    else if s = "t5" then .ok "t5-small"
    else .error (.unknownModel s)

/-- Canonical result of a numeric flag scan as a function of the looked-up
value alone. -/
def canonInt (d : Int) (err : CliError) : Option String → Except CliError Int
  | none => .ok d
  | some v =>
    match pyInt v with
    | none => .error err
    | some n => .ok n

/-- Canonical tail of the pipeline from the `--out` scan on. -/
def canonFromOut (prog m : String) (mx mn : Int) (ou : Option String)
    (pl : List String) : Except CliError (CliConfig × List String) :=
  if (prog :: pl).length < 2 then .error .missingInput
  else .ok (⟨m, mx, mn, ou⟩, prog :: pl)

/-- Canonical tail of the pipeline from the `--min` scan on. -/
def canonFromMin (prog m : String) (mx : Int) (mi ou : Option String)
    (pl : List String) : Except CliError (CliConfig × List String) :=
  match canonInt 20 .minUsage mi with
  | .error e => .error e
  | .ok mn => canonFromOut prog m mx mn ou pl

/-- Canonical tail of the pipeline from the `--max` scan on. -/
def canonFromMax (prog m : String) (mxo mi ou : Option String)
    (pl : List String) : Except CliError (CliConfig × List String) :=
  match canonInt 60 .maxUsage mxo with
  | .error e => .error e
  | .ok mx => canonFromMin prog m mx mi ou pl

/-- Canonical form of the whole argument-processing phase on a rendered
well-formed item list: a function of the per-flag lookups and the plain
tokens only — the order of the items is irrelevant. -/
def canonicalCli (prog : String) (mo mxo mi ou : Option String)
    (pl : List String) : Except CliError (CliConfig × List String) :=
  match canonModel mo with
  | .error e => .error e
  | .ok m => canonFromMax prog m mxo mi ou pl

lemma stage_out (prog : String) (hprog : prog ∉ cliFlags) (items : List CliItem)
    (hwf : wfItems items) (m : String) (mx mn : Int) :
    parseFromOut m mx mn (prog :: renderItems items) =
      canonFromOut prog m mx mn (lookupPair "--out" items)
        (renderItems (erasePair "--out" items)) := by
  have hx := extractFlag_prog_render "--out" (by simp [cliFlags]) prog hprog items hwf
  cases ho : lookupPair "--out" items with
  | none =>
    rw [ho] at hx
    rw [erasePair_not_found "--out" items ho]
    simp [parseFromOut, scanOut, hx, canonFromOut, Except.bind, Bind.bind]
  | some v =>
    rw [ho] at hx
    simp [parseFromOut, scanOut, hx, canonFromOut, Except.bind, Bind.bind]

lemma stage_min (prog : String) (hprog : prog ∉ cliFlags) (items : List CliItem)
    (hwf : wfItems items) (m : String) (mx : Int) :
    parseFromMin m mx (prog :: renderItems items) =
      canonFromMin prog m mx (lookupPair "--min" items) (lookupPair "--out" items)
        (renderItems (erasePair "--out" (erasePair "--min" items))) := by
  have hx := extractFlag_prog_render "--min" (by simp [cliFlags]) prog hprog items hwf
  cases hmi : lookupPair "--min" items with
  | none =>
    rw [hmi] at hx
    rw [erasePair_not_found "--min" items hmi]
    have hrec := stage_out prog hprog items hwf m mx 20
    simp [parseFromMin, scanIntFlag, hx, canonFromMin, canonInt, Except.bind,
      Bind.bind, hrec]
  | some v =>
    rw [hmi] at hx
    cases hp : pyInt v with
    | none =>
      simp [parseFromMin, scanIntFlag, hx, hp, canonFromMin, canonInt,
        Except.bind, Bind.bind]
    | some n =>
      have hwf' := wfItems_erase "--min" hwf
      have hrec := stage_out prog hprog (erasePair "--min" items) hwf' m mx n
      rw [lookupPair_erase "--min" "--out" (by decide) items] at hrec
      simp [parseFromMin, scanIntFlag, hx, hp, canonFromMin, canonInt,
        Except.bind, Bind.bind, hrec]

lemma stage_max (prog : String) (hprog : prog ∉ cliFlags) (items : List CliItem)
    (hwf : wfItems items) (m : String) :
    parseFromMax m (prog :: renderItems items) =
      canonFromMax prog m (lookupPair "--max" items) (lookupPair "--min" items)
        (lookupPair "--out" items)
        (renderItems (erasePair "--out" (erasePair "--min"
          (erasePair "--max" items)))) := by
  have hx := extractFlag_prog_render "--max" (by simp [cliFlags]) prog hprog items hwf
  cases hmx : lookupPair "--max" items with
  | none =>
    rw [hmx] at hx
    rw [erasePair_not_found "--max" items hmx]
    have hrec := stage_min prog hprog items hwf m 60
    simp [parseFromMax, scanIntFlag, hx, canonFromMax, canonInt, Except.bind,
      Bind.bind, hrec]
  | some v =>
    rw [hmx] at hx
    cases hp : pyInt v with
    | none =>
      simp [parseFromMax, scanIntFlag, hx, hp, canonFromMax, canonInt,
        Except.bind, Bind.bind]
    | some n =>
      have hwf' := wfItems_erase "--max" hwf
      have hrec := stage_min prog hprog (erasePair "--max" items) hwf' m n
      rw [lookupPair_erase "--max" "--min" (by decide) items,
        lookupPair_erase "--max" "--out" (by decide) items] at hrec
      simp [parseFromMax, scanIntFlag, hx, hp, canonFromMax, canonInt,
        Except.bind, Bind.bind, hrec]

/-- On a rendered well-formed item list (program name first), the whole
CLI argument-processing phase computes the canonical form: a function of
the per-flag lookups and the plain tokens only. -/
theorem parseCli_render (prog : String) (items : List CliItem)
    (hprog : prog ∉ cliFlags) (hwf : wfItems items) :
    parseCli (prog :: renderItems items) =
      canonicalCli prog (lookupPair "--model" items) (lookupPair "--max" items)
        (lookupPair "--min" items) (lookupPair "--out" items)
        (plainsOf items) := by
  have hx := extractFlag_prog_render "--model" (by simp [cliFlags]) prog hprog
    items hwf
  have hplains := render_eraseAll_eq_plains items hwf
  cases hmo : lookupPair "--model" items with
  | none =>
    rw [hmo] at hx
    have he := erasePair_not_found "--model" items hmo
    rw [he] at hplains
    have hrec := stage_max prog hprog items hwf "facebook/bart-large-cnn"
    rw [hplains] at hrec
    simp [parseCli, scanModel, hx, canonicalCli, canonModel, Except.bind,
      Bind.bind, hrec]
  | some v =>
    rw [hmo] at hx
    have hwf' := wfItems_erase "--model" hwf
    have hrec0 := fun m => stage_max prog hprog (erasePair "--model" items) hwf' m
    have hlmx := lookupPair_erase "--model" "--max" (by decide) items
    have hlmi := lookupPair_erase "--model" "--min" (by decide) items
    have hlou := lookupPair_erase "--model" "--out" (by decide) items
    by_cases hb : pyLower v = "bart"
    · have hrec := hrec0 "facebook/bart-large-cnn"
      rw [hlmx, hlmi, hlou, hplains] at hrec
      simp [parseCli, scanModel, hx, hb, canonicalCli, canonModel, Except.bind,
        Bind.bind, hrec]
    · by_cases hd : pyLower v = "distilbart"
      · have hrec := hrec0 "sshleifer/distilbart-cnn-12-6"
        rw [hlmx, hlmi, hlou, hplains] at hrec
        simp [parseCli, scanModel, hx, hb, hd, canonicalCli, canonModel,
          Except.bind, Bind.bind, hrec]
      · by_cases ht : pyLower v = "t5"
        · have hrec := hrec0 "t5-small"
          rw [hlmx, hlmi, hlou, hplains] at hrec
          simp [parseCli, scanModel, hx, hb, hd, ht, canonicalCli, canonModel,
            Except.bind, Bind.bind, hrec]
        · simp [parseCli, scanModel, hx, hb, hd, ht, canonicalCli, canonModel,
            Except.bind, Bind.bind]

/-- C7: CLI flag extraction is order-independent.  For any two well-formed
argument sequences (described as lists of flag/value pairs and plain
tokens) that carry the same value for each flag and the same plain tokens
in the same order, the argument-processing phase produces identical
results — identical parsed configurations and identical remaining
argument lists — and hence identical resolved input text under any file
system. -/
theorem cli_flag_order_independent (prog : String) (items1 items2 : List CliItem)
    (hprog : prog ∉ cliFlags) (h1 : wfItems items1) (h2 : wfItems items2)
    (hlk : ∀ g ∈ cliFlags, lookupPair g items1 = lookupPair g items2)
    (hpl : plainsOf items1 = plainsOf items2) :
    parseCli (prog :: renderItems items1) = parseCli (prog :: renderItems items2) ∧
    ∀ fs : String → Option String,
      (parseCli (prog :: renderItems items1)).map
          (fun cr => resolveInputText fs cr.2) =
        (parseCli (prog :: renderItems items2)).map
          (fun cr => resolveInputText fs cr.2) := by
  have heq : parseCli (prog :: renderItems items1) =
      parseCli (prog :: renderItems items2) := by
    rw [parseCli_render prog items1 hprog h1, parseCli_render prog items2 hprog h2,
      hlk "--model" (by simp [cliFlags]), hlk "--max" (by simp [cliFlags]),
      hlk "--min" (by simp [cliFlags]), hlk "--out" (by simp [cliFlags]), hpl]
  exact ⟨heq, fun fs => by rw [heq]⟩

/-- Witness for C7 at the spec's example: `--model t5 --max 80 text` versus
`--max 80 --model t5 text`. -/
theorem cli_flag_order_independent_witness :
    parseCli ("summarize_cli.py" :: renderItems
        [CliItem.pair "--model" "t5", CliItem.pair "--max" "80",
          CliItem.plain "text"]) =
      parseCli ("summarize_cli.py" :: renderItems
        [CliItem.pair "--max" "80", CliItem.pair "--model" "t5",
          CliItem.plain "text"]) :=
  (cli_flag_order_independent "summarize_cli.py"
    [CliItem.pair "--model" "t5", CliItem.pair "--max" "80", CliItem.plain "text"]
    [CliItem.pair "--max" "80", CliItem.pair "--model" "t5", CliItem.plain "text"]
    (by decide) (by decide) (by decide) (by decide) (by decide)).1
